import Mathlib

/-!
Verification development for a PDF text-extraction microservice (app.py).

The service is a thin orchestration layer over three external capabilities:
an HTTP client (requests.get), a primary PDF text extractor (pdfplumber) and
a fallback extractor (PyPDF2), behind two Flask routes.  The embedding below
models the external capabilities as oracle parameters (functions supplied to
each definition) and translates the orchestration code itself line by line:
Python truthiness of strings, bytes and dicts, the str.strip operation, the
10-character minimum-length gate, the exact error strings, and the catch-all
exception handler of each route.
-/

namespace PdfService

/-! Python string and bytes semantics -/

/-- Model of Python str.strip on the character list of a string: drop
trailing whitespace, then leading whitespace (the order is immaterial). -/
def pyStripData (l : List Char) : List Char :=
  ((l.reverse.dropWhile Char.isWhitespace).reverse).dropWhile Char.isWhitespace

/-- Model of Python str.strip. -/
def pyStrip (s : String) : String :=
  ⟨pyStripData s.data⟩

/-- Substring test on character lists, used for the content-type check
(Python: "pdf" in content_type). -/
def listContainsSub (needle : List Char) : List Char → Bool
  | [] => needle.isEmpty
  | c :: rest => needle.isPrefixOf (c :: rest) || listContainsSub needle rest

/-- Python substring membership test: needle in hay. -/
def strContainsSub (hay needle : String) : Bool :=
  listContainsSub needle.data hay.data

/-! JSON values, as returned by the JSON body parser of the framework -/

/-- A JSON value.  Request bodies are modelled as JSON objects (association
lists); the urls field of the batch endpoint may hold any JSON value, which
the route checks with isinstance(urls, list). -/
inductive JVal where
  | s (v : String)
  | num (v : Int)
  | boolean (v : Bool)
  | null
  | arr (v : List JVal)
  | obj (v : List (String × JVal))

/-! Fetcher: download_pdf (app.py lines 44-58) -/

/-- Outcome of the external call requests.get(url, timeout): either an
exception (network error, timeout) or a response carrying a status code, the
content-type header value (empty string when the header is absent) and the
body bytes. -/
inductive GetResult where
  | netError (msg : String)
  | response (status : Nat) (contentType : String) (content : List Nat)

/-- The timeout passed to requests.get in download_pdf. -/
def DOWNLOAD_TIMEOUT : Nat := 30

/-- download_pdf (app.py lines 44-58): issue the GET with the 30-second
timeout; response.raise_for_status() raises for any status in 400..599 and
the surrounding try/except turns every exception into None; a content-type
that does not contain the substring pdf (after lowercasing) only logs a
warning, reported here as the Bool component, and the bytes are returned
regardless. -/
def download_pdf (reqGet : JVal → Nat → GetResult) (url : JVal) :
    Option (List Nat) × Bool :=
  match reqGet url DOWNLOAD_TIMEOUT with
  | .netError _ => (none, false)
  | .response status contentType content =>
    if 400 ≤ status ∧ status < 600 then (none, false)
    else (some content, !(strContainsSub contentType.toLower "pdf"))

/-! Extractors (app.py lines 16-28 and 30-42) -/

/-- The page loop shared by both extractor wrappers: page.extract_text()
yields an optional string per page; pages whose text is None or empty are
skipped (Python: if page_text), the others are appended followed by a
newline. -/
def pagesToText (pages : List (Option String)) : String :=
  pages.foldl (fun text pt =>
    match pt with
    | some page_text => if page_text = "" then text else text ++ page_text ++ "\n"
    | none => text) ""

/-- Body shared by extract_text_with_pdfplumber and extract_text_with_pypdf2:
the external library either raises while parsing (modelled as none, the
try/except returns None after logging) or yields the per-page optional
texts, which are concatenated and stripped. -/
def extract_text_with_lib (parsed : Option (List (Option String))) : Option String :=
  match parsed with
  | none => none
  | some pages => some (pyStrip (pagesToText pages))

/-- extract_text_with_pdfplumber (app.py lines 16-28), with the pdfplumber
library modelled as the parse oracle. -/
def extract_text_with_pdfplumber
    (plumberParse : List Nat → Option (List (Option String)))
    (pdf_bytes : List Nat) : Option String :=
  extract_text_with_lib (plumberParse pdf_bytes)

/-- extract_text_with_pypdf2 (app.py lines 30-42), with the PyPDF2 library
modelled as the parse oracle. -/
def extract_text_with_pypdf2
    (pypdfParse : List Nat → Option (List (Option String)))
    (pdf_bytes : List Nat) : Option String :=
  extract_text_with_lib (pypdfParse pdf_bytes)

/-! Orchestrator core -/

/-- The condition if not extracted_text or len(extracted_text.strip()) < 10,
used both to trigger the fallback (app.py lines 95, 155) and as the final
acceptance gate (lines 99, 158).  Python truthiness: None and the empty
string are falsy. -/
def needsFallback : Option String → Bool
  | none => true
  | some s => s == "" || decide ((pyStrip s).length < 10)

/-- The fallback step (app.py lines 94-97 and 154-156): when the primary
result fails the gate the PyPDF2 result replaces it wholesale.  The Bool
component records whether the fallback extractor was invoked. -/
def run_extraction (primary fallback : Option String) : Option String × Bool :=
  if needsFallback primary then (fallback, true) else (primary, false)

/-- len(extracted_text) if extracted_text else 0 (app.py line 103). -/
def pyLenOrZero : Option String → Nat
  | none => 0
  | some s => if s == "" then 0 else s.length

/-! Routes -/

/-- The three external capabilities a request handler consults. -/
structure Env where
  reqGet : JVal → Nat → GetResult
  plumberParse : List Nat → Option (List (Option String))
  pypdfParse : List Nat → Option (List (Option String))

/-- Outcome of request.get_json(): the framework either raises (for
instance on a body that is not parseable JSON, with silent=False the parser
raises BadRequest, which the catch-all except of the route turns into a 500)
or produces a JSON object, or None when there is no JSON body. -/
inductive GetJsonOutcome where
  | raises (msg : String)
  | val (data : Option (List (String × JVal)))

/-- JSON response of the single-URL route, flattened: only the fields the
route actually emits, each optional, plus the HTTP status code. -/
structure JsonResp where
  status : Nat
  error : Option String := none
  url : Option JVal := none
  success : Option Bool := none
  text : Option String := none
  length : Option Nat := none
  extracted_length : Option Nat := none

/-- One element of the results array of the batch route. -/
structure UrlResult where
  url : JVal
  success : Bool
  text : Option String := none
  length : Option Nat := none
  error : Option String := none

/-- JSON response of the batch route. -/
structure MultiResp where
  status : Nat
  error : Option String := none
  success : Option Bool := none
  results : Option (List UrlResult) := none
  total_processed : Option Nat := none

/-- extract_pdf (app.py lines 69-117).  Python: if not data or not in data
collapses to a failed key lookup, since lookup on the empty dict fails; the
bytes check if not pdf_bytes treats both None and the empty byte string as
download failure. -/
def extract_pdf_route (env : Env) (getJson : GetJsonOutcome) : JsonResp :=
  match getJson with
  | .raises msg => { status := 500, error := some ("Internal server error: " ++ msg) }
  | .val data =>
    match data with
    | none => { status := 400, error := some "Missing \x27url\x27 parameter" }
    | some d =>
      match List.lookup "url" d with
      | none => { status := 400, error := some "Missing \x27url\x27 parameter" }
      | some pdf_url =>
        match (download_pdf env.reqGet pdf_url).1 with
        | none => { status := 400, error := some "Failed to download PDF", url := some pdf_url }
        | some b =>
          if b.isEmpty then
            { status := 400, error := some "Failed to download PDF", url := some pdf_url }
          else
            let extracted_text :=
              (run_extraction (extract_text_with_pdfplumber env.plumberParse b)
                (extract_text_with_pypdf2 env.pypdfParse b)).1
            if needsFallback extracted_text then
              { status := 400, error := some "Could not extract readable text from PDF",
                url := some pdf_url, extracted_length := some (pyLenOrZero extracted_text) }
            else
              { status := 200, success := some true, text := extracted_text,
                length := extracted_text.map String.length, url := some pdf_url }

/-- The body of one iteration of the batch loop (app.py lines 138-170). -/
def process_one_url (env : Env) (url : JVal) : UrlResult :=
  match (download_pdf env.reqGet url).1 with
  | none => { url := url, success := false, error := some "Failed to download PDF" }
  | some b =>
    if b.isEmpty then
      { url := url, success := false, error := some "Failed to download PDF" }
    else
      let extracted_text :=
        (run_extraction (extract_text_with_pdfplumber env.plumberParse b)
          (extract_text_with_pypdf2 env.pypdfParse b)).1
      if needsFallback extracted_text then
        { url := url, success := false, error := some "Could not extract readable text" }
      else
        { url := url, success := true, text := extracted_text,
          length := extracted_text.map String.length }

/-- extract_multiple_pdfs (app.py lines 119-182).  The sequential append
loop over urls is the map of process_one_url; isinstance(urls, list) is the
match on the arr constructor. -/
def extract_multiple_route (env : Env) (getJson : GetJsonOutcome) : MultiResp :=
  match getJson with
  | .raises msg => { status := 500, error := some ("Internal server error: " ++ msg) }
  | .val data =>
    match data with
    | none =>
      { status := 400, error := some "Missing \x27urls\x27 parameter (should be array)" }
    | some d =>
      match List.lookup "urls" d with
      | none =>
        { status := 400, error := some "Missing \x27urls\x27 parameter (should be array)" }
      | some urlsVal =>
        match urlsVal with
        | .arr urls =>
          { status := 200, success := some true,
            results := some (urls.map (process_one_url env)),
            total_processed := some urls.length }
        | _ => { status := 400, error := some "\x27urls\x27 should be an array" }

/-! Spec-side description of the extractor result (claim C7): the non-empty
page texts joined by single newline separators. -/

/-- The pages that contribute text: extract_text() returned a value and it
is non-empty. -/
def goodTexts (pages : List (Option String)) : List String :=
  pages.filterMap fun pt =>
    match pt with
    | some p => if p = "" then none else some p
    | none => none

/-- Join a list of strings with a newline separator between elements. -/
def newlineJoin : List String → String
  | [] => ""
  | [p] => p
  | p :: q :: rest => p ++ "\n" ++ newlineJoin (q :: rest)

/-- Each element followed by a newline, concatenated: the exact shape the
page loop builds before stripping. -/
def concatNl : List String → String
  | [] => ""
  | p :: rest => p ++ "\n" ++ concatNl rest

/-! Helper lemmas -/

theorem dropWhile_dropWhile {α : Type} (p : α → Bool) (l : List α) :
    (l.dropWhile p).dropWhile p = l.dropWhile p := by
  induction l with
  | nil => rfl
  | cons x xs ih =>
    rw [List.dropWhile_cons]
    by_cases h : p x
    · simp [h, ih]
    · simp [h, List.dropWhile_cons]

theorem pyStripData_append_ws (l : List Char) (c : Char) (hc : c.isWhitespace = true) :
    pyStripData (l ++ [c]) = pyStripData l := by
  unfold pyStripData
  rw [List.reverse_append]
  simp [List.dropWhile_cons, hc]

theorem pyStrip_append_newline (s : String) : pyStrip (s ++ "\n") = pyStrip s := by
  unfold pyStrip
  congr 1
  rw [show (s ++ "\n").data = s.data ++ ['\n'] by rw [String.data_append]]
  exact pyStripData_append_ws s.data '\n' rfl

theorem dropWhile_reverse_dropWhile (p : Char → Bool) (Y : List Char)
    (hY : Y.reverse.dropWhile p = Y.reverse) :
    (Y.dropWhile p).reverse.dropWhile p = (Y.dropWhile p).reverse := by
  cases hz : (Y.dropWhile p).reverse with
  | nil => simp
  | cons c r =>
    have hYrev : Y.reverse = c :: (r ++ (Y.takeWhile p).reverse) := by
      conv_lhs => rw [← List.takeWhile_append_dropWhile (p := p) (l := Y)]
      rw [List.reverse_append, hz, List.cons_append]
    rw [List.dropWhile_cons]
    by_cases hpc : p c
    · exfalso
      rw [hYrev, List.dropWhile_cons, if_pos hpc] at hY
      have hlen := congrArg List.length hY
      have hle : ((r ++ (Y.takeWhile p).reverse).dropWhile p).length
          ≤ (r ++ (Y.takeWhile p).reverse).length :=
        (List.dropWhile_suffix p).sublist.length_le
      simp only [List.length_cons] at hlen
      omega
    · simp [hpc]

theorem pyStripData_idem (l : List Char) : pyStripData (pyStripData l) = pyStripData l := by
  have hYrev : ((l.reverse.dropWhile Char.isWhitespace).reverse).reverse.dropWhile
        Char.isWhitespace
      = ((l.reverse.dropWhile Char.isWhitespace).reverse).reverse := by
    rw [List.reverse_reverse]
    exact dropWhile_dropWhile _ _
  have hA := dropWhile_reverse_dropWhile Char.isWhitespace
    ((l.reverse.dropWhile Char.isWhitespace).reverse) hYrev
  show pyStripData (((l.reverse.dropWhile Char.isWhitespace).reverse).dropWhile
    Char.isWhitespace) = _
  unfold pyStripData
  rw [hA, List.reverse_reverse]
  exact dropWhile_dropWhile _ _

theorem pyStrip_idem (s : String) : pyStrip (pyStrip s) = pyStrip s :=
  congrArg String.mk (pyStripData_idem s.data)

theorem needsFallback_false_iff (t : Option String) :
    needsFallback t = false ↔ ∃ s, t = some s ∧ s ≠ "" ∧ 10 ≤ (pyStrip s).length := by
  cases t with
  | none => simp [needsFallback]
  | some s =>
    simp only [needsFallback, Bool.or_eq_false_iff, beq_eq_false_iff_ne,
      decide_eq_false_iff_not, Nat.not_lt, ne_eq, Option.some.injEq]
    constructor
    · rintro ⟨h1, h2⟩
      exact ⟨s, rfl, h1, h2⟩
    · rintro ⟨s2, rfl, h1, h2⟩
      exact ⟨h1, h2⟩

theorem needsFallback_some_false (t : String) (h10 : 10 ≤ (pyStrip t).length) :
    needsFallback (some t) = false := by
  apply (needsFallback_false_iff (some t)).mpr
  refine ⟨t, rfl, ?_, h10⟩
  intro h
  subst h
  exact absurd h10 (by decide)

theorem extract_text_with_lib_stripped (parsed : Option (List (Option String)))
    (t : String) (h : extract_text_with_lib parsed = some t) : pyStrip t = t := by
  cases parsed with
  | none => simp [extract_text_with_lib] at h
  | some pages =>
    simp only [extract_text_with_lib, Option.some.injEq] at h
    rw [← h]
    exact pyStrip_idem _

theorem pagesToText_go (pages : List (Option String)) (acc : String) :
    pages.foldl (fun text pt =>
      match pt with
      | some page_text => if page_text = "" then text else text ++ page_text ++ "\n"
      | none => text) acc = acc ++ concatNl (goodTexts pages) := by
  induction pages generalizing acc with
  | nil => simp [goodTexts, concatNl]
  | cons pt rest ih =>
    cases pt with
    | none =>
      simp only [List.foldl_cons, goodTexts, List.filterMap_cons]
      exact ih acc
    | some p =>
      by_cases hp : p = ""
      · subst hp
        simp only [List.foldl_cons, if_pos rfl, goodTexts, List.filterMap_cons]
        exact ih acc
      · simp only [List.foldl_cons, if_neg hp, goodTexts, List.filterMap_cons, concatNl]
        rw [ih (acc ++ p ++ "\n")]
        rw [String.append_assoc, String.append_assoc, String.append_assoc]
        rfl

theorem concatNl_cons_eq (p : String) (rest : List String) :
    concatNl (p :: rest) = newlineJoin (p :: rest) ++ "\n" := by
  induction rest generalizing p with
  | nil => simp [concatNl, newlineJoin, String.append_empty]
  | cons q rest ih =>
    show p ++ "\n" ++ concatNl (q :: rest) = (p ++ "\n" ++ newlineJoin (q :: rest)) ++ "\n"
    rw [ih q, ← String.append_assoc]

theorem pyStrip_concatNl (l : List String) :
    pyStrip (concatNl l) = pyStrip (newlineJoin l) := by
  cases l with
  | nil => rfl
  | cons p rest => rw [concatNl_cons_eq, pyStrip_append_newline]

theorem pagesToText_strip_eq (pages : List (Option String)) :
    pyStrip (pagesToText pages) = pyStrip (newlineJoin (goodTexts pages)) := by
  unfold pagesToText
  rw [pagesToText_go pages "", String.empty_append]
  exact pyStrip_concatNl _

theorem isEmpty_false_of_ne_nil {α : Type} {b : List α} (hb : b ≠ []) :
    b.isEmpty = false := by
  cases b
  · exact absurd rfl hb
  · rfl

theorem extract_pdf_route_core (env : Env) (d : List (String × JVal)) (u : JVal)
    (b : List Nat) (hu : List.lookup "url" d = some u)
    (hdl : (download_pdf env.reqGet u).1 = some b) (hb : b ≠ []) :
    extract_pdf_route env (.val (some d)) =
      (if needsFallback
          (run_extraction (extract_text_with_pdfplumber env.plumberParse b)
            (extract_text_with_pypdf2 env.pypdfParse b)).1 then
        { status := 400, error := some "Could not extract readable text from PDF",
          url := some u,
          extracted_length := some (pyLenOrZero
            (run_extraction (extract_text_with_pdfplumber env.plumberParse b)
              (extract_text_with_pypdf2 env.pypdfParse b)).1) }
      else
        { status := 200, success := some true,
          text := (run_extraction (extract_text_with_pdfplumber env.plumberParse b)
            (extract_text_with_pypdf2 env.pypdfParse b)).1,
          length := ((run_extraction (extract_text_with_pdfplumber env.plumberParse b)
            (extract_text_with_pypdf2 env.pypdfParse b)).1).map String.length,
          url := some u }) := by
  simp only [extract_pdf_route]
  rw [hu]
  dsimp only
  rw [hdl]
  dsimp only
  simp only [isEmpty_false_of_ne_nil hb, Bool.false_eq_true, if_false]

theorem extract_pdf_route_download_fail (env : Env) (d : List (String × JVal))
    (u : JVal) (hu : List.lookup "url" d = some u)
    (hdl : (download_pdf env.reqGet u).1 = none ∨ (download_pdf env.reqGet u).1 = some []) :
    extract_pdf_route env (.val (some d)) =
      { status := 400, error := some "Failed to download PDF", url := some u } := by
  simp only [extract_pdf_route]
  rw [hu]
  dsimp only
  rcases hdl with h | h
  · rw [h]
  · rw [h]; rfl

theorem process_one_url_core (env : Env) (u : JVal) (b : List Nat)
    (hdl : (download_pdf env.reqGet u).1 = some b) (hb : b ≠ []) :
    process_one_url env u =
      (if needsFallback
          (run_extraction (extract_text_with_pdfplumber env.plumberParse b)
            (extract_text_with_pypdf2 env.pypdfParse b)).1 then
        { url := u, success := false, error := some "Could not extract readable text" }
      else
        { url := u, success := true,
          text := (run_extraction (extract_text_with_pdfplumber env.plumberParse b)
            (extract_text_with_pypdf2 env.pypdfParse b)).1,
          length := ((run_extraction (extract_text_with_pdfplumber env.plumberParse b)
            (extract_text_with_pypdf2 env.pypdfParse b)).1).map String.length }) := by
  simp only [process_one_url]
  rw [hdl]
  dsimp only
  simp only [isEmpty_false_of_ne_nil hb, Bool.false_eq_true, if_false]

theorem process_one_url_download_fail (env : Env) (u : JVal)
    (hdl : (download_pdf env.reqGet u).1 = none ∨ (download_pdf env.reqGet u).1 = some []) :
    process_one_url env u =
      { url := u, success := false, error := some "Failed to download PDF" } := by
  simp only [process_one_url]
  rcases hdl with h | h
  · rw [h]
  · rw [h]; rfl

theorem process_one_url_url (env : Env) (u : JVal) : (process_one_url env u).url = u := by
  simp only [process_one_url]
  split
  · rfl
  · split
    · rfl
    · split <;> rfl

theorem process_one_url_cases (env : Env) (u : JVal) :
    ((process_one_url env u).success = true →
      ∃ s, (process_one_url env u).text = some s ∧ s ≠ "" ∧ 10 ≤ (pyStrip s).length ∧
        (process_one_url env u).length = some s.length) ∧
    ((process_one_url env u).success = false →
      (process_one_url env u).text = none ∧ (process_one_url env u).error.isSome = true) := by
  simp only [process_one_url]
  split
  · exact ⟨fun h => Bool.noConfusion h, fun _ => ⟨rfl, rfl⟩⟩
  · split
    · exact ⟨fun h => Bool.noConfusion h, fun _ => ⟨rfl, rfl⟩⟩
    · split
      · exact ⟨fun h => Bool.noConfusion h, fun _ => ⟨rfl, rfl⟩⟩
      next hnf =>
        obtain ⟨s, hs, hne, h10⟩ := (needsFallback_false_iff _).mp (by simpa using hnf)
        refine ⟨fun _ => ⟨s, ?_, hne, h10, ?_⟩, fun h => Bool.noConfusion h⟩
        · simpa using hs
        · simp [hs]

theorem extract_pdf_route_cases (env : Env) (gj : GetJsonOutcome) :
    (extract_pdf_route env gj).success = some true →
      ∃ s, (extract_pdf_route env gj).text = some s ∧ s ≠ "" ∧
        10 ≤ (pyStrip s).length ∧
        (extract_pdf_route env gj).length = some s.length ∧
        (extract_pdf_route env gj).status = 200 := by
  simp only [extract_pdf_route]
  split
  · exact fun h => Option.noConfusion h
  · split
    · exact fun h => Option.noConfusion h
    · split
      · exact fun h => Option.noConfusion h
      · split
        · exact fun h => Option.noConfusion h
        · split
          · exact fun h => Option.noConfusion h
          · split
            · exact fun h => Option.noConfusion h
            next hnf =>
              intro _
              obtain ⟨s, hs, hne, h10⟩ := (needsFallback_false_iff _).mp (by simpa using hnf)
              exact ⟨s, by simpa using hs, hne, h10, by simp [hs], rfl⟩

theorem extract_multiple_route_results (env : Env) (gj : GetJsonOutcome)
    (rs : List UrlResult) (hrs : (extract_multiple_route env gj).results = some rs) :
    ∃ urls : List JVal, rs = urls.map (process_one_url env) := by
  cases gj with
  | raises msg => exact Option.noConfusion hrs
  | val data =>
    cases data with
    | none => exact Option.noConfusion hrs
    | some d =>
      simp only [extract_multiple_route] at hrs
      cases hl : List.lookup "urls" d with
      | none => rw [hl] at hrs; exact Option.noConfusion hrs
      | some v =>
        rw [hl] at hrs
        cases v with
        | arr urls => exact ⟨urls, (Option.some.inj hrs).symm⟩
        | s w => exact Option.noConfusion hrs
        | num n => exact Option.noConfusion hrs
        | boolean bv => exact Option.noConfusion hrs
        | null => exact Option.noConfusion hrs
        | obj o => exact Option.noConfusion hrs

/-! Concrete environments used by the witnesses -/

/-- A concrete environment whose download always fails with a network
error. -/
def envNoop : Env where
  reqGet := fun _ _ => .netError "connection refused"
  plumberParse := fun _ => none
  pypdfParse := fun _ => none

/-- A concrete environment whose download succeeds with a one-byte body and
whose primary extractor yields one ten-character page. -/
def envPrimaryOk : Env where
  reqGet := fun _ _ => .response 200 "application/pdf" [1]
  plumberParse := fun _ => some [some "0123456789"]
  pypdfParse := fun _ => none

/-- A concrete environment whose download succeeds but both extractors
raise while parsing. -/
def envBothFail : Env where
  reqGet := fun _ _ => .response 200 "application/pdf" [1]
  plumberParse := fun _ => none
  pypdfParse := fun _ => none

/-! The claims -/

/-- C1: when the primary extraction yields text of trimmed length at least
10, the pipeline keeps that text unchanged (it is already trimmed) and the
fallback is not invoked; when the primary result is absent or trimmed-short
the fallback runs on the same bytes, and if its result is also absent or
trimmed-short the final acceptance gate reports failure. -/
theorem claim1_fallback_policy (env : Env) (b : List Nat) :
    (∀ t, extract_text_with_pdfplumber env.plumberParse b = some t →
        10 ≤ (pyStrip t).length →
        run_extraction (extract_text_with_pdfplumber env.plumberParse b)
            (extract_text_with_pypdf2 env.pypdfParse b) = (some t, false) ∧
          pyStrip t = t) ∧
    (needsFallback (extract_text_with_pdfplumber env.plumberParse b) = true →
        run_extraction (extract_text_with_pdfplumber env.plumberParse b)
            (extract_text_with_pypdf2 env.pypdfParse b)
          = (extract_text_with_pypdf2 env.pypdfParse b, true) ∧
        (needsFallback (extract_text_with_pypdf2 env.pypdfParse b) = true →
            needsFallback (run_extraction (extract_text_with_pdfplumber env.plumberParse b)
                (extract_text_with_pypdf2 env.pypdfParse b)).1 = true)) := by
  constructor
  · intro t ht h10
    have hnf := needsFallback_some_false t h10
    refine ⟨?_, extract_text_with_lib_stripped (env.plumberParse b) t ht⟩
    rw [ht]
    simp [run_extraction, hnf]
  · intro hp
    constructor
    · simp [run_extraction, hp]
    · intro hf
      simp [run_extraction, hp, hf]

/-- Witness for claim1_fallback_policy: a concrete environment whose primary
extractor yields a single 10-character page; the fallback stays uninvoked. -/
theorem claim1_fallback_policy_witness :
    run_extraction
        (extract_text_with_pdfplumber (fun _ => some [some "0123456789"]) [1])
        (extract_text_with_pypdf2 (fun _ => none) [1])
      = (some "0123456789", false) ∧ pyStrip "0123456789" = "0123456789" :=
  (claim1_fallback_policy
    { reqGet := fun _ _ => .netError "",
      plumberParse := fun _ => some [some "0123456789"],
      pypdfParse := fun _ => none } [1]).1 "0123456789" (by decide) (by decide)

/-- C7: each extractor wrapper is a total function of the parse outcome: a
parse error yields an absent result (no exception reaches the orchestrator),
and a parsed page list yields exactly the non-empty page texts joined by
newline separators, trimmed of surrounding whitespace. -/
theorem claim7_extractor_shape (parse : List Nat → Option (List (Option String)))
    (b : List Nat) (pages : List (Option String)) :
    extract_text_with_pdfplumber (fun _ => none) b = none ∧
    extract_text_with_pypdf2 (fun _ => none) b = none ∧
    extract_text_with_pdfplumber (fun _ => some pages) b
      = some (pyStrip (newlineJoin (goodTexts pages))) ∧
    extract_text_with_pypdf2 (fun _ => some pages) b
      = some (pyStrip (newlineJoin (goodTexts pages))) ∧
    extract_text_with_pdfplumber parse b = extract_text_with_lib (parse b) ∧
    extract_text_with_pypdf2 parse b = extract_text_with_lib (parse b) := by
  refine ⟨rfl, rfl, ?_, ?_, rfl, rfl⟩ <;>
    simp only [extract_text_with_pdfplumber, extract_text_with_pypdf2,
      extract_text_with_lib, Option.some.injEq] <;>
    exact pagesToText_strip_eq pages

/-- C10: when the fallback is invoked its output replaces the primary
output wholesale, and on failure of the single-URL endpoint the reported
extracted_length is computed solely from the fallback text (0 when the
fallback returned nothing), whatever the primary produced. -/
theorem claim10_fallback_replaces (p f : Option String) (env : Env)
    (d : List (String × JVal)) (u : JVal) (b : List Nat)
    (hu : List.lookup "url" d = some u)
    (hdl : (download_pdf env.reqGet u).1 = some b) (hb : b ≠ [])
    (hp : needsFallback (extract_text_with_pdfplumber env.plumberParse b) = true)
    (hf : needsFallback (extract_text_with_pypdf2 env.pypdfParse b) = true)
    (hnp : needsFallback p = true) :
    run_extraction p f = (f, true) ∧
    (extract_pdf_route env (.val (some d))).extracted_length
      = some (pyLenOrZero (extract_text_with_pypdf2 env.pypdfParse b)) ∧
    pyLenOrZero none = 0 := by
  refine ⟨by simp [run_extraction, hnp], ?_, rfl⟩
  rw [extract_pdf_route_core env d u b hu hdl hb]
  simp [run_extraction, hp, hf]

/-- Witness for claim10_fallback_replaces: the primary extractor produced 9
characters, the fallback only 1; the reported extracted_length is 1. -/
theorem claim10_fallback_replaces_witness :
    run_extraction (some "012345678") (some "x") = (some "x", true) ∧
    (extract_pdf_route
        { reqGet := fun _ _ => .response 200 "application/pdf" [1],
          plumberParse := fun _ => some [some "012345678"],
          pypdfParse := fun _ => some [some "x"] }
        (.val (some [("url", .s "u")]))).extracted_length
      = some (pyLenOrZero (extract_text_with_pypdf2 (fun _ => some [some "x"]) [1])) ∧
    pyLenOrZero none = 0 :=
  claim10_fallback_replaces (some "012345678") (some "x")
    { reqGet := fun _ _ => .response 200 "application/pdf" [1],
      plumberParse := fun _ => some [some "012345678"],
      pypdfParse := fun _ => some [some "x"] }
    [("url", .s "u")] (.s "u") [1]
    rfl rfl (by decide) (by decide) (by decide) (by decide)

/-- C2: a response is successful only when the extracted text, after
trimming surrounding whitespace, has at least 10 characters; every success
carries non-empty text together with a length field equal to the length of
that text, on both the single-URL and the batch endpoint. -/
theorem claim2_success_gate (env : Env) (gj : GetJsonOutcome) :
    ((extract_pdf_route env gj).success = some true →
      ∃ s, (extract_pdf_route env gj).text = some s ∧ s ≠ "" ∧
        10 ≤ (pyStrip s).length ∧
        (extract_pdf_route env gj).length = some s.length ∧
        (extract_pdf_route env gj).status = 200) ∧
    (∀ rs, (extract_multiple_route env gj).results = some rs →
      ∀ r ∈ rs,
        (r.success = true →
          ∃ s, r.text = some s ∧ s ≠ "" ∧ 10 ≤ (pyStrip s).length ∧
            r.length = some s.length) ∧
        (r.success = false → r.text = none ∧ r.error.isSome = true)) := by
  refine ⟨extract_pdf_route_cases env gj, ?_⟩
  intro rs hrs
  obtain ⟨urls, rfl⟩ := extract_multiple_route_results env gj rs hrs
  intro r hr
  obtain ⟨u, _, rfl⟩ := List.mem_map.mp hr
  exact process_one_url_cases env u

/-- Witness for claim2_success_gate: the single endpoint succeeds on a
concrete environment and reports the ten-character text with its length. -/
theorem claim2_success_gate_witness :
    ∃ s, (extract_pdf_route envPrimaryOk (.val (some [("url", .s "u")]))).text = some s ∧
      s ≠ "" ∧ 10 ≤ (pyStrip s).length ∧
      (extract_pdf_route envPrimaryOk (.val (some [("url", .s "u")]))).length
        = some s.length ∧
      (extract_pdf_route envPrimaryOk (.val (some [("url", .s "u")]))).status = 200 :=
  (claim2_success_gate envPrimaryOk (.val (some [("url", .s "u")]))).1 (by rfl)

/-- C3: the batch route returns one result per input URL in input order,
with the result at position i produced from the URL at position i; the
loop never aborts on a failing URL and total_processed equals the input
count whatever the individual outcomes. -/
theorem claim3_batch_shape (env : Env) (d : List (String × JVal)) (urls : List JVal)
    (h : List.lookup "urls" d = some (JVal.arr urls)) :
    ∃ rs, (extract_multiple_route env (.val (some d))).results = some rs ∧
      rs.length = urls.length ∧
      (∀ i (hi : i < rs.length) (hi2 : i < urls.length),
        rs.get ⟨i, hi⟩ = process_one_url env (urls.get ⟨i, hi2⟩) ∧
        (rs.get ⟨i, hi⟩).url = urls.get ⟨i, hi2⟩) ∧
      (extract_multiple_route env (.val (some d))).total_processed = some urls.length ∧
      (extract_multiple_route env (.val (some d))).status = 200 := by
  have hroute : extract_multiple_route env (.val (some d)) =
      { status := 200, success := some true,
        results := some (urls.map (process_one_url env)),
        total_processed := some urls.length } := by
    simp only [extract_multiple_route]
    rw [h]
  refine ⟨urls.map (process_one_url env), ?_, ?_, ?_, ?_, ?_⟩
  · rw [hroute]
  · exact List.length_map _ _
  · intro i hi hi2
    have hget : (urls.map (process_one_url env)).get ⟨i, hi⟩
        = process_one_url env (urls.get ⟨i, hi2⟩) := by
      simp [List.get_eq_getElem]
    exact ⟨hget, by rw [hget]; exact process_one_url_url env _⟩
  · rw [hroute]
  · rw [hroute]

/-- Witness for claim3_batch_shape: a two-URL batch against a failing
downloader still yields two results and total_processed 2. -/
theorem claim3_batch_shape_witness :
    ∃ rs, (extract_multiple_route envNoop
        (.val (some [("urls", .arr [.s "a", .s "b"])]))).results = some rs ∧
      rs.length = [JVal.s "a", JVal.s "b"].length ∧
      (∀ i (hi : i < rs.length) (hi2 : i < [JVal.s "a", JVal.s "b"].length),
        rs.get ⟨i, hi⟩ = process_one_url envNoop ([JVal.s "a", JVal.s "b"].get ⟨i, hi2⟩) ∧
        (rs.get ⟨i, hi⟩).url = [JVal.s "a", JVal.s "b"].get ⟨i, hi2⟩) ∧
      (extract_multiple_route envNoop
        (.val (some [("urls", .arr [.s "a", .s "b"])]))).total_processed
        = some [JVal.s "a", JVal.s "b"].length ∧
      (extract_multiple_route envNoop
        (.val (some [("urls", .arr [.s "a", .s "b"])]))).status = 200 :=
  claim3_batch_shape envNoop [("urls", .arr [.s "a", .s "b"])]
    [JVal.s "a", JVal.s "b"] rfl

/-- C5: a single-URL request whose JSON object body is empty or lacks the
url key gets HTTP 400 with the exact missing-parameter error; a batch
request whose urls field holds a non-array value gets HTTP 400 with the
error saying urls should be an array. -/
theorem claim5_param_validation (env : Env) (d : List (String × JVal)) (v : JVal) :
    ((extract_pdf_route env (.val (some []))).status = 400 ∧
      (extract_pdf_route env (.val (some []))).error
        = some "Missing \x27url\x27 parameter") ∧
    (List.lookup "url" d = none →
      (extract_pdf_route env (.val (some d))).status = 400 ∧
      (extract_pdf_route env (.val (some d))).error
        = some "Missing \x27url\x27 parameter") ∧
    (List.lookup "urls" d = some v → (∀ l, v ≠ JVal.arr l) →
      (extract_multiple_route env (.val (some d))).status = 400 ∧
      (extract_multiple_route env (.val (some d))).error
        = some "\x27urls\x27 should be an array") := by
  refine ⟨⟨rfl, rfl⟩, ?_, ?_⟩
  · intro h
    simp only [extract_pdf_route]
    rw [h]
    exact ⟨rfl, rfl⟩
  · intro h hv
    simp only [extract_multiple_route]
    rw [h]
    cases v with
    | arr l => exact absurd rfl (hv l)
    | s w => exact ⟨rfl, rfl⟩
    | num n => exact ⟨rfl, rfl⟩
    | boolean bv => exact ⟨rfl, rfl⟩
    | null => exact ⟨rfl, rfl⟩
    | obj o => exact ⟨rfl, rfl⟩

/-- Witness for claim5_param_validation: a body whose only key is urls
bound to a string, exercising both the missing-url path of the single
endpoint and the non-array path of the batch endpoint. -/
theorem claim5_param_validation_witness :
    ((extract_pdf_route envNoop
        (.val (some [("urls", .s "not-an-array")]))).status = 400 ∧
      (extract_pdf_route envNoop
        (.val (some [("urls", .s "not-an-array")]))).error
        = some "Missing \x27url\x27 parameter") ∧
    ((extract_multiple_route envNoop
        (.val (some [("urls", .s "not-an-array")]))).status = 400 ∧
      (extract_multiple_route envNoop
        (.val (some [("urls", .s "not-an-array")]))).error
        = some "\x27urls\x27 should be an array") :=
  ⟨(claim5_param_validation envNoop [("urls", .s "not-an-array")]
      (JVal.s "not-an-array")).2.1 rfl,
   (claim5_param_validation envNoop [("urls", .s "not-an-array")]
      (JVal.s "not-an-array")).2.2 rfl (fun _ hl => JVal.noConfusion hl)⟩

/-- C4 counterexample: on a byte buffer where both extractors fail, the
single-URL endpoint reports the error string with the from PDF suffix,
not the exact string the claim asserts for both endpoints; the batch
endpoint does use the shorter string on the same input. -/
theorem claim4_error_string_counterexample :
    (extract_pdf_route envBothFail (.val (some [("url", .s "u")]))).error
      = some "Could not extract readable text from PDF" ∧
    (extract_pdf_route envBothFail (.val (some [("url", .s "u")]))).error
      ≠ some "Could not extract readable text" ∧
    (process_one_url envBothFail (.s "u")).error
      = some "Could not extract readable text" :=
  ⟨rfl, by decide, rfl⟩

/-- C4 (amended): when both extractors fail or return trimmed text shorter
than 10 characters, each endpoint reports an ordinary per-URL failure and
never an unhandled fault; the batch per-URL reason is exactly the string
Could not extract readable text, while the single-URL endpoint reason is
the string Could not extract readable text from PDF. -/
theorem claim4_error_strings (env : Env) (d : List (String × JVal)) (u : JVal)
    (b : List Nat) (hu : List.lookup "url" d = some u)
    (hdl : (download_pdf env.reqGet u).1 = some b) (hb : b ≠ [])
    (hp : needsFallback (extract_text_with_pdfplumber env.plumberParse b) = true)
    (hf : needsFallback (extract_text_with_pypdf2 env.pypdfParse b) = true) :
    (extract_pdf_route env (.val (some d))).status = 400 ∧
    (extract_pdf_route env (.val (some d))).error
      = some "Could not extract readable text from PDF" ∧
    (process_one_url env u).success = false ∧
    (process_one_url env u).error = some "Could not extract readable text" := by
  rw [extract_pdf_route_core env d u b hu hdl hb, process_one_url_core env u b hdl hb]
  simp [run_extraction, hp, hf]

/-- Witness for claim4_error_strings at a concrete both-extractors-fail
environment. -/
theorem claim4_error_strings_witness :
    (extract_pdf_route envBothFail (.val (some [("url", .s "w")]))).status = 400 ∧
    (extract_pdf_route envBothFail (.val (some [("url", .s "w")]))).error
      = some "Could not extract readable text from PDF" ∧
    (process_one_url envBothFail (.s "w")).success = false ∧
    (process_one_url envBothFail (.s "w")).error
      = some "Could not extract readable text" :=
  claim4_error_strings envBothFail [("url", .s "w")] (.s "w") [1]
    rfl rfl (by decide) rfl rfl

/-- C6: download_pdf consults the HTTP GET only at the 30-second timeout; a
network error or timeout, and any response status in 400..599, yield a
download failure, which the single-URL endpoint reports as HTTP 400 with
error Failed to download PDF echoing the url; a success response proceeds
to extraction whatever its content-type, the warning flag being set exactly
when the lowercased content-type lacks the substring pdf. -/
theorem claim6_fetcher (g g2 : JVal → Nat → GetResult) (u : JVal) (status : Nat)
    (ct : String) (content : List Nat) (msg : String) (env : Env)
    (d : List (String × JVal)) :
    DOWNLOAD_TIMEOUT = 30 ∧
    (g u 30 = g2 u 30 → download_pdf g u = download_pdf g2 u) ∧
    (g u 30 = .netError msg → download_pdf g u = (none, false)) ∧
    (g u 30 = .response status ct content → 400 ≤ status → status < 600 →
      download_pdf g u = (none, false)) ∧
    (g u 30 = .response status ct content → ¬(400 ≤ status ∧ status < 600) →
      (download_pdf g u).1 = some content ∧
      ((download_pdf g u).2 = true ↔ strContainsSub ct.toLower "pdf" = false)) ∧
    (List.lookup "url" d = some u → (download_pdf env.reqGet u).1 = none →
      extract_pdf_route env (.val (some d)) =
        { status := 400, error := some "Failed to download PDF", url := some u }) := by
  refine ⟨rfl, ?_, ?_, ?_, ?_, ?_⟩
  · intro hgg
    simp only [download_pdf, DOWNLOAD_TIMEOUT]
    rw [hgg]
  · intro hg
    simp only [download_pdf, DOWNLOAD_TIMEOUT]
    rw [hg]
  · intro hg h4 h6
    simp only [download_pdf, DOWNLOAD_TIMEOUT]
    rw [hg]
    dsimp only
    rw [if_pos ⟨h4, h6⟩]
  · intro hg hns
    simp only [download_pdf, DOWNLOAD_TIMEOUT]
    rw [hg]
    dsimp only
    rw [if_neg hns]
    exact ⟨rfl, by cases strContainsSub ct.toLower "pdf" <;> simp⟩
  · intro hu hdl
    exact extract_pdf_route_download_fail env d u hu (Or.inl hdl)

/-- Witness for claim6_fetcher: a URL whose GET times out makes the single
endpoint answer 400 with the download-failure error echoing the url. -/
theorem claim6_fetcher_witness :
    download_pdf (fun _ _ => GetResult.netError "timed out") (.s "t") = (none, false) ∧
    extract_pdf_route envNoop (.val (some [("url", .s "t")]))
      = { status := 400, error := some "Failed to download PDF", url := some (.s "t") } :=
  ⟨(claim6_fetcher (fun _ _ => .netError "timed out") (fun _ _ => .netError "timed out")
      (.s "t") 0 "" [] "timed out" envNoop [("url", .s "t")]).2.2.1 rfl,
   (claim6_fetcher (fun _ _ => .netError "timed out") (fun _ _ => .netError "timed out")
      (.s "t") 0 "" [] "timed out" envNoop [("url", .s "t")]).2.2.2.2.2 rfl rfl⟩

/-- C8 counterexample: a request body that is not parseable JSON makes the
framework parser raise inside the try block of each route, and the
catch-all handler answers HTTP 500, not the HTTP 400 the claim asserts. -/
theorem claim8_counterexample :
    (extract_pdf_route envNoop (.raises "bad json")).status = 500 ∧
    (extract_multiple_route envNoop (.raises "bad json")).status = 500 :=
  ⟨rfl, rfl⟩

/-- C8 (amended): a missing JSON body or a body lacking the required field
gets HTTP 400 with a descriptive error on both endpoints, but a body whose
JSON parsing raises inside the handler is caught by the catch-all and
reported as HTTP 500 with an Internal server error message. -/
theorem claim8_bad_body (env : Env) (d : List (String × JVal)) (msg : String) :
    ((extract_pdf_route env (.val none)).status = 400 ∧
      (extract_pdf_route env (.val none)).error
        = some "Missing \x27url\x27 parameter") ∧
    (List.lookup "url" d = none →
      (extract_pdf_route env (.val (some d))).status = 400 ∧
      (extract_pdf_route env (.val (some d))).error.isSome = true) ∧
    ((extract_multiple_route env (.val none)).status = 400 ∧
      (extract_multiple_route env (.val none)).error
        = some "Missing \x27urls\x27 parameter (should be array)") ∧
    (List.lookup "urls" d = none →
      (extract_multiple_route env (.val (some d))).status = 400 ∧
      (extract_multiple_route env (.val (some d))).error.isSome = true) ∧
    ((extract_pdf_route env (.raises msg)).status = 500 ∧
      (extract_pdf_route env (.raises msg)).error
        = some ("Internal server error: " ++ msg)) ∧
    ((extract_multiple_route env (.raises msg)).status = 500 ∧
      (extract_multiple_route env (.raises msg)).error
        = some ("Internal server error: " ++ msg)) := by
  refine ⟨⟨rfl, rfl⟩, ?_, ⟨rfl, rfl⟩, ?_, ⟨rfl, rfl⟩, ⟨rfl, rfl⟩⟩
  · intro h
    simp only [extract_pdf_route]
    rw [h]
    exact ⟨rfl, rfl⟩
  · intro h
    simp only [extract_multiple_route]
    rw [h]
    exact ⟨rfl, rfl⟩

/-- Witness for claim8_bad_body: a body holding only an unrelated key gets
400 from both endpoints. -/
theorem claim8_bad_body_witness :
    ((extract_pdf_route envNoop (.val (some [("x", JVal.null)]))).status = 400 ∧
      (extract_pdf_route envNoop (.val (some [("x", JVal.null)]))).error.isSome = true) ∧
    ((extract_multiple_route envNoop (.val (some [("x", JVal.null)]))).status = 400 ∧
      (extract_multiple_route envNoop
        (.val (some [("x", JVal.null)]))).error.isSome = true) :=
  ⟨(claim8_bad_body envNoop [("x", JVal.null)] "e").2.1 rfl,
   (claim8_bad_body envNoop [("x", JVal.null)] "e").2.2.2.1 rfl⟩

/-- A concrete environment whose download completes with HTTP 200 but a
zero-byte body, while both extractors would succeed if consulted. -/
def envEmptyBody : Env where
  reqGet := fun _ _ => .response 200 "application/pdf" []
  plumberParse := fun _ => some [some "0123456789abc"]
  pypdfParse := fun _ => some [some "0123456789abc"]

/-- C9: a download that completes with a success status but a zero-byte
body is indistinguishable from a failed download at the pipeline boundary:
both endpoints report Failed to download PDF and extraction is never
attempted, whatever the extractor oracles would return. -/
theorem claim9_empty_download (env : Env) (u : JVal) (d : List (String × JVal))
    (status : Nat) (ct : String)
    (hres : env.reqGet u DOWNLOAD_TIMEOUT = .response status ct [])
    (hok : ¬(400 ≤ status ∧ status < 600))
    (hu : List.lookup "url" d = some u) :
    extract_pdf_route env (.val (some d)) =
      { status := 400, error := some "Failed to download PDF", url := some u } ∧
    process_one_url env u =
      { url := u, success := false, error := some "Failed to download PDF" } := by
  have hdl : (download_pdf env.reqGet u).1 = some [] := by
    simp only [download_pdf]
    rw [hres]
    dsimp only
    rw [if_neg hok]
  exact ⟨extract_pdf_route_download_fail env d u hu (Or.inr hdl),
    process_one_url_download_fail env u (Or.inr hdl)⟩

/-- Witness for claim9_empty_download at the zero-byte-download
environment. -/
theorem claim9_empty_download_witness :
    extract_pdf_route envEmptyBody (.val (some [("url", .s "e")]))
      = { status := 400, error := some "Failed to download PDF", url := some (.s "e") } ∧
    process_one_url envEmptyBody (.s "e")
      = { url := .s "e", success := false, error := some "Failed to download PDF" } :=
  claim9_empty_download envEmptyBody (.s "e") [("url", .s "e")] 200 "application/pdf"
    rfl (by decide) rfl

end PdfService
